import Mathlib

/-!
Shallow embedding of the netcup CCP API client (`netcup.go`).

The Go client holds account credentials and a session token, and funnels the
four operations (`Login`, `Logout`, `GetRecords`, `UpdateRecords`) through one
dispatch primitive `request`.  The HTTP transport and the decoding of the outer
response envelope (both delegated in Go to `net/http` and `encoding/json`) are
modelled by a `Transport` oracle: given the endpoint URL and the serialized
request body, it yields either a network failure, a failure to decode the outer
envelope, or the decoded envelope.  JSON values are modelled by the inductive
`Json`; Go's `map[string]interface{}` is an association list with
insert-replace semantics, matching Go map assignment.

Go's `*json.RawMessage` pointer for `responsedata` is modelled by
`Option Json`: `encoding/json` leaves the pointer `nil` when the field is
absent or JSON `null`.  Dereferencing that nil pointer is a Go runtime panic,
modelled by the `OpResult.panic` outcome.
-/

set_option autoImplicit false

namespace Netcup

/-- A JSON value, as produced/consumed by `encoding/json`.  Numbers are
modelled as integers (the only numeric field on the wire is the customer
number). -/
inductive Json where
  | null
  | bool (b : Bool)
  | num (n : Int)
  | str (s : String)
  | arr (elems : List Json)
  | obj (fields : List (String × Json))
deriving Repr

/-- First binding of key `k` in a JSON object's field list (field names on the
wire are unique for every value this client builds or decodes). -/
def jsonLookup (fields : List (String × Json)) (k : String) : Option Json :=
  match fields with
  | [] => none
  | (k', v) :: rest => if k' = k then some v else jsonLookup rest k

/-- Go map assignment `m[k] = v`: replace the binding if the key is present,
otherwise add it. -/
def mapInsert (m : List (String × Json)) (k : String) (v : Json) : List (String × Json) :=
  match m with
  | [] => [(k, v)]
  | (k', v') :: rest => if k' = k then (k, v) :: rest else (k', v') :: mapInsert rest k v

/-- A DNS record (`Record` struct, netcup.go lines 27–35).  JSON tags:
`id, hostname, type, priority, destination, deleterecord, state`. -/
structure Record where
  id : String
  hostname : String
  type : String
  priority : String
  destination : String
  deleterecord : Bool
  state : String
deriving DecidableEq, Repr

/-- The zero `Record`, as produced by Go when decoding into a fresh struct. -/
def Record.zero : Record :=
  { id := "", hostname := "", type := "", priority := "", destination := "",
    deleterecord := false, state := "" }

/-- Model of `json.Marshal` of a `Record`: all seven tagged fields are emitted, none
carries `omitempty`. -/
def Record.toJson (r : Record) : Json :=
  .obj [("id", .str r.id), ("hostname", .str r.hostname), ("type", .str r.type),
        ("priority", .str r.priority), ("destination", .str r.destination),
        ("deleterecord", .bool r.deleterecord), ("state", .str r.state)]

/-- Decode a JSON value into a Go `string` struct field: absent and `null`
leave the zero value, a string is taken verbatim, anything else is an
`UnmarshalTypeError`. -/
def getStr (fields : List (String × Json)) (k : String) : Except String String :=
  match jsonLookup fields k with
  | none => .ok ""
  | some .null => .ok ""
  | some (.str s) => .ok s
  | some _ => .error "cannot unmarshal value into string field"

/-- Decode a JSON value into a Go `bool` struct field (same conventions as
`getStr`). -/
def getBool (fields : List (String × Json)) (k : String) : Except String Bool :=
  match jsonLookup fields k with
  | none => .ok false
  | some .null => .ok false
  | some (.bool b) => .ok b
  | some _ => .error "cannot unmarshal value into bool field"

/-- Model of `json.Unmarshal` into a `Record`: JSON `null` is a no-op (zero record), an
object populates the tagged fields, any other value is a type error. -/
def Record.fromJson : Json → Except String Record
  | .null => .ok Record.zero
  | .obj fields => do
    let id ← getStr fields "id"
    let hostname ← getStr fields "hostname"
    let type ← getStr fields "type"
    let priority ← getStr fields "priority"
    let destination ← getStr fields "destination"
    let deleterecord ← getBool fields "deleterecord"
    let state ← getStr fields "state"
    .ok { id, hostname, type, priority, destination, deleterecord, state }
  | _ => .error "cannot unmarshal value into Record"

/-- The `Client` struct (netcup.go lines 14–24).  The `httpClient` transport
handle is an opaque token; its behaviour is supplied separately as a
`Transport` oracle so the embedding stays pure. -/
structure Client where
  customerNumber : Int
  apiKey : String
  sessionID : String
  endpoint : String
  httpClient : Nat
  domainName : String
  records : List Record
deriving Repr

/-- The fixed production endpoint URL (netcup.go line 11). -/
def productionEndpoint : String :=
  "https://ccp.netcup.net/run/webservice/servers/endpoint.php?JSON"

/-- The constructor `NewClient` (netcup.go lines 56–65). -/
def NewClient (customerNumber : Int) (apiKey : String) : Client :=
  { customerNumber, apiKey, sessionID := "", endpoint := productionEndpoint,
    httpClient := 0, domainName := "", records := [] }

/-- The serialized request body `{"action": ..., "param": ...}` handed to the
transport. -/
structure RequestBody where
  action : String
  param : List (String × Json)

/-- The decoded outer response envelope (`responseBody` struct, netcup.go
lines 44–53).  `responsedata` is `none` when the JSON field is absent or
`null` (nil `*json.RawMessage`). -/
structure ResponseBody where
  serverrequestid : String
  clientrequestid : String
  action : String
  status : String
  statuscode : Int
  shortmessage : String
  longmessage : String
  responsedata : Option Json

/-- Outcome of `Post` + `ReadAll` + outer-envelope `Unmarshal`, as seen by
`request`. -/
inductive Wire where
  | netFail
  | envelopeFail
  | resp (r : ResponseBody)

/-- The transport collaborator: endpoint URL and request body determine the
wire outcome. -/
def Transport : Type := String → RequestBody → Wire

/-- The errors `request` and the operations can return. -/
inductive ReqError where
  | noSession
  | netErr
  | envelopeDecodeErr
  | apiErr (action : String) (longmessage : String)
  | dataDecodeErr
deriving DecidableEq, Repr

/-- The error text surfaced to the caller (`fmt.Errorf` calls in netcup.go). -/
def ReqError.text : ReqError → String
  | .noSession => "no session ID. Make sure to login first"
  | .netErr => "transport error"
  | .envelopeDecodeErr => "invalid response body"
  | .apiErr action longmessage =>
      "Request \"" ++ action ++ "\" failed: " ++ longmessage
  | .dataDecodeErr => "cannot unmarshal responsedata"

/-- Predicate: `s` contains `sub` as a contiguous substring. -/
def containsSub (s sub : String) : Prop :=
  ∃ pre post, s = pre ++ sub ++ post

/-- The `param` mapping built by `request` (netcup.go lines 73–92): the
caller's parameters (empty when `param == nil`) with `customernumber`,
`apikey` and — only when a session is held — `apisessionid` assigned on
top. -/
def buildParamMap (c : Client) (param : Option (List (String × Json))) :
    List (String × Json) :=
  let m := match param with
    | none => []
    | some fields => fields
  let m := mapInsert m "customernumber" (.num c.customerNumber)
  let m := mapInsert m "apikey" (.str c.apiKey)
  if c.sessionID ≠ "" then mapInsert m "apisessionid" (.str c.sessionID) else m

/-- The dispatch primitive `request` (netcup.go lines 67–121).  The returned
`Bool` records whether the transport was invoked (whether a network call was
made).  Serializing the request body cannot fail for the `Json`-representable
parameters the operations build, so the dead `json.Marshal` error branch has
no counterpart here. -/
def request (c : Client) (t : Transport) (action : String)
    (param : Option (List (String × Json))) :
    Except ReqError (Option Json) × Bool :=
  if c.sessionID = "" ∧ action ≠ "login" then (.error .noSession, false)
  else
    let paramMap := buildParamMap c param
    match t c.endpoint { action, param := paramMap } with
    | .netFail => (.error .netErr, true)
    | .envelopeFail => (.error .envelopeDecodeErr, true)
    | .resp r =>
      if r.statuscode ≠ 2000 then (.error (.apiErr action r.longmessage), true)
      else (.ok r.responsedata, true)

/-- Outcome of one operation: a returned error or value together with the
client's resulting state, or a Go runtime panic (nil-pointer dereference). -/
inductive OpResult (α : Type) where
  | panic
  | err (e : ReqError) (c : Client)
  | ok (a : α) (c : Client)

/-- The `{apipassword: ...}` parameter built by `Login` (netcup.go
lines 125–127). -/
def loginParam (apiPassword : String) : List (String × Json) :=
  [("apipassword", .str apiPassword)]

/-- Model of `json.Unmarshal` of `responsedata` into
`struct { APISessionID string }` with tag `apisessionid` (netcup.go
lines 134–141). -/
def decodeLoginData : Json → Except String String
  | .null => .ok ""
  | .obj fields => getStr fields "apisessionid"
  | _ => .error "cannot unmarshal value into login response"

/-- The operation `Login` (netcup.go lines 124–145).  `.ok buf` with `buf = none` is the
nil `*json.RawMessage` that `json.Unmarshal(*buf, ...)` would dereference:
a runtime panic. -/
def Login (c : Client) (t : Transport) (apiPassword : String) :
    OpResult Unit × Bool :=
  let r := request c t "login" (some (loginParam apiPassword))
  match r.1 with
  | .error e => (.err e c, r.2)
  | .ok none => (.panic, r.2)
  | .ok (some j) =>
    match decodeLoginData j with
    | .error _ => (.err .dataDecodeErr c, r.2)
    | .ok sid => (.ok () { c with sessionID := sid }, r.2)

/-- The operation `Logout` (netcup.go lines 148–156): the response payload is not decoded. -/
def Logout (c : Client) (t : Transport) : OpResult Unit × Bool :=
  let r := request c t "logout" none
  match r.1 with
  | .error e => (.err e c, r.2)
  | .ok _ => (.ok () { c with sessionID := "" }, r.2)

/-- Model of `json.Unmarshal` of `responsedata` into
`struct { DNSRecords []Record }` with tag `dnsrecords` (netcup.go
lines 169–176 and 199–206). -/
def decodeRecordsData : Json → Except String (List Record)
  | .null => .ok []
  | .obj fields =>
    match jsonLookup fields "dnsrecords" with
    | none => .ok []
    | some .null => .ok []
    | some (.arr elems) => elems.mapM Record.fromJson
    | some _ => .error "cannot unmarshal value into []Record"
  | _ => .error "cannot unmarshal value into records response"

/-- The `{domainname: ...}` parameter built by `GetRecords` (netcup.go
lines 160–162). -/
def getRecordsParam (domainname : String) : List (String × Json) :=
  [("domainname", .str domainname)]

/-- The operation `GetRecords` (netcup.go lines 159–181). -/
def GetRecords (c : Client) (t : Transport) (domainname : String) :
    OpResult (List Record) × Bool :=
  let r := request c t "infoDnsRecords" (some (getRecordsParam domainname))
  match r.1 with
  | .error e => (.err e c, r.2)
  | .ok none => (.panic, r.2)
  | .ok (some j) =>
    match decodeRecordsData j with
    | .error _ => (.err .dataDecodeErr c, r.2)
    | .ok rs => (.ok rs { c with records := rs }, r.2)

/-- The `{domainname: ..., dnsrecordset: {dnsrecords: [...]}}` parameter built
by `UpdateRecords` (netcup.go lines 185–192). -/
def updateRecordsParam (domainname : String) (records : List Record) :
    List (String × Json) :=
  [("domainname", .str domainname),
   ("dnsrecordset", .obj [("dnsrecords", .arr (records.map Record.toJson))])]

/-- The operation `UpdateRecords` (netcup.go lines 184–211). -/
def UpdateRecords (c : Client) (t : Transport) (domainname : String)
    (records : List Record) : OpResult (List Record) × Bool :=
  let r := request c t "updateDnsRecords" (some (updateRecordsParam domainname records))
  match r.1 with
  | .error e => (.err e c, r.2)
  | .ok none => (.panic, r.2)
  | .ok (some j) =>
    match decodeRecordsData j with
    | .error _ => (.err .dataDecodeErr c, r.2)
    | .ok rs => (.ok rs { c with records := rs }, r.2)

/-- The field names of a JSON object (empty for non-objects). -/
def Json.objKeys : Json → List String
  | .obj fields => fields.map Prod.fst
  | _ => []

/-- The identity-carrying fields of the client — everything except the session
token and the cached record list — agree between `c` and `c'`. -/
def preservesIdentity (c c' : Client) : Prop :=
  c'.customerNumber = c.customerNumber ∧ c'.apiKey = c.apiKey ∧
  c'.endpoint = c.endpoint ∧ c'.httpClient = c.httpClient ∧
  c'.domainName = c.domainName

/-- Frame property of one operation outcome: a returned error hands back the
client exactly as it was, a returned value hands back a client whose
identity-carrying fields are untouched and which moreover satisfies `keep`
(the field the operation does not mutate). -/
def frameOk {α : Type} (c : Client) (keep : Client → Prop) : OpResult α → Prop
  | .panic => True
  | .err _ c' => c' = c
  | .ok _ c' => preservesIdentity c c' ∧ keep c'

/-! ### Concrete fixtures (mirroring the repository's test harness values) -/

/-- The test client: `NewClient(1234, "key")`. -/
def client0 : Client := NewClient 1234 "key"

/-- The test client after a successful login. -/
def clientS : Client := { client0 with sessionID := "thisisasessionid" }

/-- A successful envelope carrying the given payload. -/
def respWith (data : Option Json) : ResponseBody :=
  { serverrequestid := "", clientrequestid := "", action := "", status := "success",
    statuscode := 2000, shortmessage := "", longmessage := "", responsedata := data }

/-- A transport whose server always answers a successful login envelope. -/
def loginOkTransport : Transport := fun _ _ =>
  .resp (respWith (some (.obj [("apisessionid", .str "thisisasessionid")])))

/-- A transport whose server always answers a successful records envelope
carrying the given records. -/
def recordsOkTransport (rs : List Record) : Transport := fun _ _ =>
  .resp (respWith (some (.obj [("dnsrecords", .arr (rs.map Record.toJson))])))

/-- A transport whose server always answers a non-2000 envelope. -/
def deniedTransport : Transport := fun _ _ =>
  .resp { serverrequestid := "", clientrequestid := "", action := "", status := "error",
          statuscode := 4001, shortmessage := "", longmessage := "Access denied",
          responsedata := none }

/-- A transport whose server answers status 2000 with an empty-object
payload. -/
def emptyObjTransport : Transport := fun _ _ => .resp (respWith (some (.obj [])))

/-- A transport whose server answers status 2000 with `responsedata` absent:
the decoded envelope carries a nil raw-message pointer. -/
def nilDataTransport : Transport := fun _ _ => .resp (respWith none)

/-- A transport whose response body is not valid JSON: the outer envelope
fails to decode. -/
def badEnvelopeTransport : Transport := fun _ _ => .envelopeFail

/-- A transport whose server answers status 2000 with a string payload, which
no action-specific shape can decode. -/
def strDataTransport : Transport := fun _ _ => .resp (respWith (some (.str "nope")))

/-- A concrete DNS record used by witnesses. -/
def record0 : Record :=
  { id := "1", hostname := "www", type := "A", priority := "0",
    destination := "127.0.0.1", deleterecord := false, state := "yes" }

/-! ### Helper lemmas -/

theorem jsonLookup_mapInsert (m : List (String × Json)) (k k₂ : String) (v : Json) :
    jsonLookup (mapInsert m k v) k₂ = if k₂ = k then some v else jsonLookup m k₂ := by
  induction m with
  | nil =>
    simp only [mapInsert, jsonLookup]
    by_cases h : k₂ = k
    · simp [h]
    · simp [h, Ne.symm h]
  | cons hd tl ih =>
    obtain ⟨k', v'⟩ := hd
    simp only [mapInsert]
    by_cases hk : k' = k
    · subst hk
      simp only [if_pos rfl, jsonLookup]
      by_cases h : k₂ = k'
      · simp [h]
      · simp [h, Ne.symm h]
    · rw [if_neg hk]
      simp only [jsonLookup]
      by_cases h : k' = k₂
      · have hk₂ : ¬k₂ = k := fun hc => hk (h.trans hc)
        rw [if_pos h, if_neg hk₂, if_pos h]
      · rw [if_neg h, ih]
        by_cases hkk : k₂ = k
        · rw [if_pos hkk, if_pos hkk]
        · rw [if_neg hkk, if_neg hkk, if_neg h]

theorem Record.fromJson_toJson (r : Record) :
    Record.fromJson (Record.toJson r) = .ok r := by
  cases r
  rfl

theorem decodeRecordsData_encode (recs : List Record) :
    decodeRecordsData (.obj [("dnsrecords", .arr (recs.map Record.toJson))]) = .ok recs := by
  have hmap : ∀ l : List Record, List.mapM Record.fromJson (l.map Record.toJson) = .ok l := by
    intro l
    induction l with
    | nil => rfl
    | cons r tl ih =>
      rw [List.map_cons, List.mapM_cons, Record.fromJson_toJson, ih]
      rfl
  have hred : decodeRecordsData (.obj [("dnsrecords", .arr (recs.map Record.toJson))]) =
      List.mapM Record.fromJson (recs.map Record.toJson) := rfl
  rw [hred, hmap]

theorem request_ok_called (c : Client) (t : Transport) (action : String)
    (param : Option (List (String × Json))) (o : Option Json)
    (h : (request c t action param).1 = .ok o) :
    (request c t action param).2 = true := by
  by_cases hg : c.sessionID = "" ∧ action ≠ "login"
  · simp [request, hg] at h
  · simp only [request, if_neg hg]
    split
    · rfl
    · rfl
    · split
      · rfl
      · rfl

theorem apiErr_text_contains (a m : String) :
    containsSub (ReqError.apiErr a m).text a ∧ containsSub (ReqError.apiErr a m).text m := by
  constructor
  · exact ⟨"Request \"", "\" failed: " ++ m, by
      simp [ReqError.text, String.append_assoc]⟩
  · exact ⟨"Request \"" ++ a ++ "\" failed: ", "", by
      simp [ReqError.text, String.append_empty]⟩

theorem jsonLookup_buildParamMap (c : Client) (param : Option (List (String × Json)))
    (k : String) :
    jsonLookup (buildParamMap c param) k =
      if c.sessionID ≠ "" ∧ k = "apisessionid" then some (.str c.sessionID)
      else if k = "apikey" then some (.str c.apiKey)
      else if k = "customernumber" then some (.num c.customerNumber)
      else jsonLookup (match param with | none => [] | some fields => fields) k := by
  simp only [buildParamMap]
  by_cases hs : c.sessionID ≠ ""
  · rw [if_pos hs, jsonLookup_mapInsert, jsonLookup_mapInsert, jsonLookup_mapInsert]
    simp [hs]
  · rw [if_neg hs, jsonLookup_mapInsert, jsonLookup_mapInsert]
    simp [hs]

/-! ### The claims -/

/-- Claim C1: with an empty session token, `request` on any action other than
`"login"` — and hence `Logout`, `GetRecords` and `UpdateRecords` — returns the
unauthenticated error at once without invoking the transport (the `Bool`
component is `false`); for the `"login"` action the dispatch proceeds and the
transport is invoked. -/
theorem c1_empty_session_short_circuit (c : Client) (t : Transport)
    (h : c.sessionID = "") :
    (∀ action, action ≠ "login" →
      ∀ param, request c t action param = (.error .noSession, false)) ∧
    Logout c t = (.err .noSession c, false) ∧
    (∀ d, GetRecords c t d = (.err .noSession c, false)) ∧
    (∀ d rs, UpdateRecords c t d rs = (.err .noSession c, false)) ∧
    (∀ param, (request c t "login" param).2 = true) := by
  have hreq : ∀ action, action ≠ "login" →
      ∀ param, request c t action param = (.error .noSession, false) := by
    intro action ha param
    simp [request, h, ha]
  refine ⟨hreq, ?_, ?_, ?_, ?_⟩
  · simp [Logout, hreq "logout" (by simp)]
  · intro d
    simp [GetRecords, hreq "infoDnsRecords" (by simp)]
  · intro d rs
    simp [UpdateRecords, hreq "updateDnsRecords" (by simp)]
  · intro param
    simp only [request]
    rw [if_neg (by simp)]
    split
    · rfl
    · rfl
    · split
      · rfl
      · rfl

/-- Witness for C1 at the test client before login. -/
theorem c1_empty_session_short_circuit_witness :
    client0.sessionID = "" ∧
    Logout client0 deniedTransport = (.err .noSession client0, false) ∧
    GetRecords client0 deniedTransport "example.com" = (.err .noSession client0, false) ∧
    (request client0 deniedTransport "login" none).2 = true :=
  ⟨rfl, (c1_empty_session_short_circuit client0 deniedTransport rfl).2.1,
   (c1_empty_session_short_circuit client0 deniedTransport rfl).2.2.1 "example.com",
   (c1_empty_session_short_circuit client0 deniedTransport rfl).2.2.2.2 none⟩

/-- Claim C2: the `param` mapping always binds `customernumber` to the
customer number and `apikey` to the API key; it binds `apisessionid` to the
session token exactly when the token is non-empty and omits the key entirely
when it is empty (given that the caller's own parameters never supply that
key, which the four param builders indeed never do); every caller-supplied
key remains present. -/
theorem c2_param_map_common_fields (c : Client) (param : Option (List (String × Json)))
    (habsent : jsonLookup (match param with | none => [] | some fields => fields)
      "apisessionid" = none) :
    jsonLookup (buildParamMap c param) "customernumber" = some (.num c.customerNumber) ∧
    jsonLookup (buildParamMap c param) "apikey" = some (.str c.apiKey) ∧
    (c.sessionID ≠ "" →
      jsonLookup (buildParamMap c param) "apisessionid" = some (.str c.sessionID)) ∧
    (c.sessionID = "" → jsonLookup (buildParamMap c param) "apisessionid" = none) ∧
    (∀ k, jsonLookup (match param with | none => [] | some fields => fields) k ≠ none →
      jsonLookup (buildParamMap c param) k ≠ none) ∧
    (∀ pw, jsonLookup (loginParam pw) "apisessionid" = none) ∧
    (∀ d, jsonLookup (getRecordsParam d) "apisessionid" = none) ∧
    (∀ d rs, jsonLookup (updateRecordsParam d rs) "apisessionid" = none) := by
  refine ⟨?_, ?_, ?_, ?_, ?_, fun pw => rfl, fun d => rfl, fun d rs => rfl⟩
  · rw [jsonLookup_buildParamMap]
    simp
  · rw [jsonLookup_buildParamMap]
    simp
  · intro hs
    rw [jsonLookup_buildParamMap]
    simp [hs]
  · intro hs
    rw [jsonLookup_buildParamMap]
    simp [hs, habsent]
  · intro k hk
    rw [jsonLookup_buildParamMap]
    split
    · simp
    · split
      · simp
      · split
        · simp
        · exact hk

/-- Witness for C2: with a session held the token is sent, without one the
key is absent. -/
theorem c2_param_map_common_fields_witness :
    jsonLookup (buildParamMap clientS (some (loginParam "password"))) "apisessionid" =
      some (.str "thisisasessionid") ∧
    jsonLookup (buildParamMap client0 (some (loginParam "password"))) "apisessionid" = none ∧
    jsonLookup (buildParamMap client0 (some (loginParam "password"))) "customernumber" =
      some (.num 1234) :=
  ⟨(c2_param_map_common_fields clientS (some (loginParam "password")) rfl).2.2.1
      (by decide),
   (c2_param_map_common_fields client0 (some (loginParam "password")) rfl).2.2.2.1 rfl,
   (c2_param_map_common_fields client0 (some (loginParam "password")) rfl).1⟩

/-- Claim C3: the session token changes only by these transitions — a `Login`
whose dispatch and decoding both succeed sets it to the decoded
`apisessionid` value, replacing any prior value; a `Logout` whose dispatch
succeeds clears it to the empty string whatever the payload was; a `Login` or
`Logout` that returns an error leaves it as it was. -/
theorem c3_session_token_transitions (c : Client) (t : Transport) (pw : String) :
    (∀ j sid, (request c t "login" (some (loginParam pw))).1 = .ok (some j) →
      decodeLoginData j = .ok sid →
      (Login c t pw).1 = .ok () { c with sessionID := sid }) ∧
    (∀ e c', (Login c t pw).1 = .err e c' → c'.sessionID = c.sessionID) ∧
    (∀ c', (Logout c t).1 = .ok () c' → c'.sessionID = "") ∧
    (∀ e c', (Logout c t).1 = .err e c' → c'.sessionID = c.sessionID) := by
  refine ⟨?_, ?_, ?_, ?_⟩
  · intro j sid hreq hdec
    simp [Login, hreq, hdec]
  · intro e c' h
    cases hreq : (request c t "login" (some (loginParam pw))).1 with
    | error e0 =>
      simp [Login, hreq] at h
      rw [← h.2]
    | ok o =>
      cases o with
      | none => simp [Login, hreq] at h
      | some j =>
        cases hdec : decodeLoginData j with
        | error msg =>
          simp [Login, hreq, hdec] at h
          rw [← h.2]
        | ok sid => simp [Login, hreq, hdec] at h
  · intro c' h
    cases hreq : (request c t "logout" none).1 with
    | error e0 => simp [Logout, hreq] at h
    | ok o =>
      simp [Logout, hreq] at h
      rw [← h]
  · intro e c' h
    cases hreq : (request c t "logout" none).1 with
    | error e0 =>
      simp [Logout, hreq] at h
      rw [← h.2]
    | ok o => simp [Logout, hreq] at h

/-- Witness for C3 at the test fixtures: a successful login stores the
server-issued token, a successful logout clears it, a failed login leaves it
unchanged. -/
theorem c3_session_token_transitions_witness :
    (Login client0 loginOkTransport "password").1 =
      .ok () { client0 with sessionID := "thisisasessionid" } ∧
    ({ clientS with sessionID := "" } : Client).sessionID = "" ∧
    client0.sessionID = client0.sessionID :=
  ⟨(c3_session_token_transitions client0 loginOkTransport "password").1
      (.obj [("apisessionid", .str "thisisasessionid")]) "thisisasessionid" rfl rfl,
   (c3_session_token_transitions clientS loginOkTransport "password").2.2.1
      { clientS with sessionID := "" } rfl,
   (c3_session_token_transitions client0 deniedTransport "password").2.1
      (.apiErr "login" "Access denied") client0 rfl⟩

/-- Claim C4: whenever the envelope's status code is not exactly 2000, every
operation returns the API error carrying the action name and the envelope's
long message — both appear in the error text — and hands back the client
unchanged; only status code 2000 is success. -/
theorem c4_non_2000_uniform_failure (c : Client) (t : Transport) (r : ResponseBody)
    (hst : r.statuscode ≠ 2000) :
    (∀ pw, t c.endpoint { action := "login", param := buildParamMap c (some (loginParam pw)) } = .resp r →
      Login c t pw = (.err (.apiErr "login" r.longmessage) c, true)) ∧
    (c.sessionID ≠ "" →
      (t c.endpoint { action := "logout", param := buildParamMap c none } = .resp r →
        Logout c t = (.err (.apiErr "logout" r.longmessage) c, true)) ∧
      (∀ d, t c.endpoint { action := "infoDnsRecords", param := buildParamMap c (some (getRecordsParam d)) } = .resp r →
        GetRecords c t d = (.err (.apiErr "infoDnsRecords" r.longmessage) c, true)) ∧
      (∀ d rs, t c.endpoint { action := "updateDnsRecords", param := buildParamMap c (some (updateRecordsParam d rs)) } = .resp r →
        UpdateRecords c t d rs = (.err (.apiErr "updateDnsRecords" r.longmessage) c, true))) ∧
    (∀ action, containsSub (ReqError.apiErr action r.longmessage).text action ∧
      containsSub (ReqError.apiErr action r.longmessage).text r.longmessage) := by
  have hreq : ∀ action param, ¬(c.sessionID = "" ∧ action ≠ "login") →
      t c.endpoint { action := action, param := buildParamMap c param } = .resp r →
      request c t action param = (.error (.apiErr action r.longmessage), true) := by
    intro action param hg ht
    simp only [request, if_neg hg, ht, if_pos hst]
  refine ⟨?_, ?_, fun action => apiErr_text_contains action r.longmessage⟩
  · intro pw ht
    simp [Login, hreq "login" (some (loginParam pw)) (by simp) ht]
  · intro hs
    refine ⟨?_, ?_, ?_⟩
    · intro ht
      simp [Logout, hreq "logout" none (fun hg => hs hg.1) ht]
    · intro d ht
      simp [GetRecords, hreq "infoDnsRecords" (some (getRecordsParam d)) (fun hg => hs hg.1) ht]
    · intro d rs ht
      simp [UpdateRecords,
        hreq "updateDnsRecords" (some (updateRecordsParam d rs)) (fun hg => hs hg.1) ht]

/-- Witness for C4 at a server answering status 4001 with long message
`Access denied`. -/
theorem c4_non_2000_uniform_failure_witness :
    Login clientS deniedTransport "password" =
      (.err (.apiErr "login" "Access denied") clientS, true) ∧
    GetRecords clientS deniedTransport "example.com" =
      (.err (.apiErr "infoDnsRecords" "Access denied") clientS, true) ∧
    containsSub (ReqError.apiErr "login" "Access denied").text "login" :=
  ⟨(c4_non_2000_uniform_failure clientS deniedTransport
      { serverrequestid := "", clientrequestid := "", action := "", status := "error",
        statuscode := 4001, shortmessage := "", longmessage := "Access denied",
        responsedata := none } (by decide)).1 "password" rfl,
   ((c4_non_2000_uniform_failure clientS deniedTransport
      { serverrequestid := "", clientrequestid := "", action := "", status := "error",
        statuscode := 4001, shortmessage := "", longmessage := "Access denied",
        responsedata := none } (by decide)).2.1 (by decide)).2.1 "example.com" rfl,
   ((c4_non_2000_uniform_failure clientS deniedTransport
      { serverrequestid := "", clientrequestid := "", action := "", status := "error",
        statuscode := 4001, shortmessage := "", longmessage := "Access denied",
        responsedata := none } (by decide)).2.2 "login").1⟩

/-- Claim C5: a successful `GetRecords` or `UpdateRecords` returns exactly the
sequence decoded from the `dnsrecords` field and replaces the cached record
list with that same sequence; decoding itself preserves the wire sequence
element for element, in order, without deduplication. -/
theorem c5_records_returned_and_cached (c : Client) (t : Transport) (d : String)
    (rs : List Record) :
    (∀ j recs, (request c t "infoDnsRecords" (some (getRecordsParam d))).1 = .ok (some j) →
      decodeRecordsData j = .ok recs →
      GetRecords c t d = (.ok recs { c with records := recs }, true)) ∧
    (∀ j recs, (request c t "updateDnsRecords" (some (updateRecordsParam d rs))).1 = .ok (some j) →
      decodeRecordsData j = .ok recs →
      UpdateRecords c t d rs = (.ok recs { c with records := recs }, true)) ∧
    (∀ recs, decodeRecordsData (.obj [("dnsrecords", .arr (recs.map Record.toJson))]) = .ok recs) := by
  refine ⟨?_, ?_, fun recs => decodeRecordsData_encode recs⟩
  · intro j recs hreq hdec
    have hb := request_ok_called c t "infoDnsRecords" (some (getRecordsParam d)) (some j) hreq
    simp [GetRecords, hreq, hdec, hb]
  · intro j recs hreq hdec
    have hb := request_ok_called c t "updateDnsRecords" (some (updateRecordsParam d rs)) (some j) hreq
    simp [UpdateRecords, hreq, hdec, hb]

/-- Witness for C5: a server answering one concrete record makes `GetRecords`
return it and cache it. -/
theorem c5_records_returned_and_cached_witness :
    GetRecords clientS (recordsOkTransport [record0]) "example.com" =
      (.ok [record0] { clientS with records := [record0] }, true) :=
  (c5_records_returned_and_cached clientS (recordsOkTransport [record0]) "example.com" []).1
    (.obj [("dnsrecords", .arr ([record0].map Record.toJson))]) [record0] rfl
    (decodeRecordsData_encode [record0])

/-- Claim C6: encoding a `Record` to JSON and decoding that same JSON yields a
`Record` equal to the original in all seven fields. -/
theorem c6_record_roundtrip (r : Record) :
    Record.fromJson (Record.toJson r) = .ok r :=
  Record.fromJson_toJson r

/-- Claim C7: the JSON serialization of every `Record` is an object with
exactly the seven keys `id`, `hostname`, `type`, `priority`, `destination`,
`deleterecord`, `state` — each present even when its value is empty, and no
additional keys — each bound to the corresponding field. -/
theorem c7_record_serialization_keys (r : Record) :
    Json.objKeys (Record.toJson r) =
      ["id", "hostname", "type", "priority", "destination", "deleterecord", "state"] ∧
    ∃ fields, Record.toJson r = .obj fields ∧
      jsonLookup fields "id" = some (.str r.id) ∧
      jsonLookup fields "hostname" = some (.str r.hostname) ∧
      jsonLookup fields "type" = some (.str r.type) ∧
      jsonLookup fields "priority" = some (.str r.priority) ∧
      jsonLookup fields "destination" = some (.str r.destination) ∧
      jsonLookup fields "deleterecord" = some (.bool r.deleterecord) ∧
      jsonLookup fields "state" = some (.str r.state) := by
  refine ⟨rfl, _, rfl, ?_, ?_, ?_, ?_, ?_, ?_, ?_⟩ <;> rfl

/-- Claim C8 (the code diverges): a malformed outer envelope and a present but
undecodable `responsedata` payload do make `Login`, `GetRecords` and
`UpdateRecords` return an error; but a server answer with status 2000 whose
`responsedata` is absent or null leaves the envelope's raw-message pointer
nil, and all three operations dereference it (`*buf`) and panic instead of
returning an error to the caller. -/
theorem c8_nil_responsedata_panics :
    Login client0 nilDataTransport "password" = (.panic, true) ∧
    GetRecords clientS nilDataTransport "example.com" = (.panic, true) ∧
    UpdateRecords clientS nilDataTransport "example.com" [record0] = (.panic, true) ∧
    Login client0 badEnvelopeTransport "password" =
      (.err .envelopeDecodeErr client0, true) ∧
    Login client0 strDataTransport "password" = (.err .dataDecodeErr client0, true) ∧
    GetRecords clientS strDataTransport "example.com" =
      (.err .dataDecodeErr clientS, true) ∧
    UpdateRecords clientS strDataTransport "example.com" [record0] =
      (.err .dataDecodeErr clientS, true) :=
  ⟨rfl, rfl, rfl, rfl, rfl, rfl, rfl⟩

/-- Claim C9: every operation, on every returned outcome, leaves the customer
number, API key, endpoint URL, transport handle and `domainName` unchanged;
beyond those, `Login` and `Logout` keep the cached record list and
`GetRecords`/`UpdateRecords` keep the session token. -/
theorem c9_operations_frame (c : Client) (t : Transport) (pw d : String)
    (rs : List Record) :
    frameOk c (fun c' => c'.records = c.records) (Login c t pw).1 ∧
    frameOk c (fun c' => c'.records = c.records) (Logout c t).1 ∧
    frameOk c (fun c' => c'.sessionID = c.sessionID) (GetRecords c t d).1 ∧
    frameOk c (fun c' => c'.sessionID = c.sessionID) (UpdateRecords c t d rs).1 := by
  refine ⟨?_, ?_, ?_, ?_⟩
  · cases hreq : (request c t "login" (some (loginParam pw))).1 with
    | error e0 => simp [frameOk, Login, hreq]
    | ok o =>
      cases o with
      | none => simp [frameOk, Login, hreq]
      | some j =>
        cases hdec : decodeLoginData j with
        | error msg => simp [frameOk, Login, hreq, hdec]
        | ok sid => simp [frameOk, Login, hreq, hdec, preservesIdentity]
  · cases hreq : (request c t "logout" none).1 with
    | error e0 => simp [frameOk, Logout, hreq]
    | ok o => simp [frameOk, Logout, hreq, preservesIdentity]
  · cases hreq : (request c t "infoDnsRecords" (some (getRecordsParam d))).1 with
    | error e0 => simp [frameOk, GetRecords, hreq]
    | ok o =>
      cases o with
      | none => simp [frameOk, GetRecords, hreq]
      | some j =>
        cases hdec : decodeRecordsData j with
        | error msg => simp [frameOk, GetRecords, hreq, hdec]
        | ok recs => simp [frameOk, GetRecords, hreq, hdec, preservesIdentity]
  · cases hreq : (request c t "updateDnsRecords" (some (updateRecordsParam d rs))).1 with
    | error e0 => simp [frameOk, UpdateRecords, hreq]
    | ok o =>
      cases o with
      | none => simp [frameOk, UpdateRecords, hreq]
      | some j =>
        cases hdec : decodeRecordsData j with
        | error msg => simp [frameOk, UpdateRecords, hreq, hdec]
        | ok recs => simp [frameOk, UpdateRecords, hreq, hdec, preservesIdentity]

/-- Claim C10: a `Login` answered with status 2000 and a `responsedata` object
that lacks `apisessionid` (or binds it to `""`) returns no error but stores
the empty session token, after which every non-login operation fails the
session precondition without a network call. -/
theorem c10_login_empty_apisessionid (c : Client) (t : Transport) (pw : String)
    (fields : List (String × Json))
    (hreq : (request c t "login" (some (loginParam pw))).1 = .ok (some (.obj fields)))
    (hsid : jsonLookup fields "apisessionid" = none ∨
      jsonLookup fields "apisessionid" = some (.str "")) :
    Login c t pw = (.ok () { c with sessionID := "" }, true) ∧
    (∀ t' d, GetRecords { c with sessionID := "" } t' d =
      (.err .noSession { c with sessionID := "" }, false)) ∧
    (∀ t' d rs, UpdateRecords { c with sessionID := "" } t' d rs =
      (.err .noSession { c with sessionID := "" }, false)) ∧
    (∀ t', Logout { c with sessionID := "" } t' =
      (.err .noSession { c with sessionID := "" }, false)) := by
  have hdec : decodeLoginData (.obj fields) = .ok "" := by
    rcases hsid with h | h <;> simp [decodeLoginData, getStr, h]
  have hb := request_ok_called c t "login" (some (loginParam pw)) (some (.obj fields)) hreq
  have hguard : ∀ (t' : Transport) action, action ≠ "login" →
      ∀ param, request { c with sessionID := "" } t' action param =
        (.error .noSession, false) := by
    intro t' action ha param
    simp [request, ha]
  refine ⟨by simp [Login, hreq, hdec, hb], ?_, ?_, ?_⟩
  · intro t' d
    simp [GetRecords, hguard t' "infoDnsRecords" (by simp)]
  · intro t' d rs
    simp [UpdateRecords, hguard t' "updateDnsRecords" (by simp)]
  · intro t'
    simp [Logout, hguard t' "logout" (by simp)]

/-- Witness for C10: a server answering login with an empty object payload. -/
theorem c10_login_empty_apisessionid_witness :
    Login client0 emptyObjTransport "password" =
      (.ok () { client0 with sessionID := "" }, true) ∧
    GetRecords { client0 with sessionID := "" } deniedTransport "example.com" =
      (.err .noSession { client0 with sessionID := "" }, false) :=
  ⟨(c10_login_empty_apisessionid client0 emptyObjTransport "password" [] rfl
      (.inl rfl)).1,
   (c10_login_empty_apisessionid client0 emptyObjTransport "password" [] rfl
      (.inl rfl)).2.1 deniedTransport "example.com"⟩

end Netcup
